import Mathlib

/-
Verification of the query-construction orchestration component of the
ai-google-search-query application (src/app.py), shallowly embedded in Lean.

The embedded code is `AppWindow.run_search` and `AppWindow.reset_search`.
The external pydantic_ai agent (`agent.run_sync`) is modelled as a function
from the generation request (the user input text and the message history
passed to `run_sync`) to one of three outcomes: it completes with a result
(whose `.data` may or may not be a structured `SearchQuery` — the source
guards with `isinstance`), it raises `UnexpectedModelBehavior` (the one
exception class the source catches), or it raises some other exception
(which the source does not catch).  Per the generator contract, a completed
run records exactly one new exchange, and `res.all_messages()` returns the
history passed in followed by that exchange; the source assigns this to
`self.message_history`, which we model as appending one `Turn`.
-/

namespace AIGoogleSearch

/-- The structured output schema of the generator (class SearchQuery in
src/app.py): a single field, the search query text. -/
structure SearchQuery where
  search_query : String
deriving DecidableEq, Repr

/-- One exchange recorded in the message history: the user input submitted
to the generator and the output the model produced for it. -/
structure Turn where
  input : String
  output : String
deriving DecidableEq, Repr

/-- The `.data` carried by a completed `run_sync` result: either a
structured `SearchQuery`, or anything else (the source checks with
`isinstance(res.data, SearchQuery)`). -/
inductive ResData where
  | structured (q : SearchQuery)
  | unstructured
deriving DecidableEq, Repr

/-- Outcome of `agent.run_sync`: completion carrying `.data` together with
the model output text recorded in the run's new message, or an
`UnexpectedModelBehavior` exception with its message, or some other
exception with its message. -/
inductive AgentOutcome where
  | completed (data : ResData) (output : String)
  | unexpectedModelBehavior (msg : String)
  | otherException (msg : String)
deriving DecidableEq, Repr

/-- The generation request: `run_sync` is called with the user input text
and the current message history (src/app.py line 204). -/
structure GenRequest where
  text : String
  history : List Turn
deriving DecidableEq, Repr

/-- The external generator collaborator, as the function from the request
it is given to the outcome of the call. -/
abbrev Agent := GenRequest → AgentOutcome

/-- The mutable widget state of `AppWindow` that `run_search` and
`reset_search` read or write: the input field text, the lines of the log
window, the status-bar message (`none` when cleared), and the conversation
message history. -/
structure AppState where
  input_field : String
  log_window : List String
  status_bar : Option String
  message_history : List Turn
deriving DecidableEq, Repr

/-- External side effects issued by `run_search`: the single
`QDesktopServices.openUrl` browser launch. -/
inductive Effect where
  | openUrl (url : String)
deriving DecidableEq, Repr

/-- The request handed to `run_sync`: the text of the input field together
with the full current `message_history` (src/app.py lines 201 and 204). -/
def build_request (s : AppState) : GenRequest :=
  { text := s.input_field, history := s.message_history }

/-- Result of one `run_search` call: the widget state afterwards, the
external effects issued, and the message of an uncaught exception when the
call raised one that the `except UnexpectedModelBehavior` clause does not
catch. -/
structure RunResult where
  state : AppState
  effects : List Effect
  uncaught : Option String
deriving DecidableEq, Repr

/-- Embedding of `AppWindow.run_search` (src/app.py lines 200-214): read
the input field, call `run_sync` with the input and the message history;
if the result data is a `SearchQuery`, append the query line to the log
window, show the status-bar message, open the browser at the Google search
URL, and replace `message_history` with `res.all_messages()` (the prior
history plus the new exchange); if the data is not a `SearchQuery`, do
nothing; on `UnexpectedModelBehavior` show the error in the status bar;
any other exception propagates uncaught. -/
def run_search (agent : Agent) (s : AppState) : RunResult :=
  let user_input := s.input_field
  match agent (build_request s) with
  | .completed data output =>
    match data with
    | .structured q =>
      let search_query := q.search_query
      { state :=
          { s with
            log_window := s.log_window ++ ["Search query: " ++ search_query],
            status_bar :=
              some ("Opening browser with query: " ++ search_query ++ "..."),
            message_history :=
              s.message_history ++ [{ input := user_input, output := output }] },
        effects :=
          [Effect.openUrl ("https://www.google.com/search?q=" ++ search_query)],
        uncaught := none }
    | .unstructured => { state := s, effects := [], uncaught := none }
  | .unexpectedModelBehavior msg =>
      { state := { s with status_bar := some ("Error: " ++ msg) },
        effects := [], uncaught := none }
  | .otherException msg =>
      { state := s, effects := [], uncaught := some msg }

/-- Embedding of `AppWindow.reset_search` (src/app.py lines 194-198):
clear the input field, the log window and the status bar, and set
`message_history` to the empty list. -/
def reset_search (_ : AppState) : AppState :=
  { input_field := "", log_window := [], status_bar := none,
    message_history := [] }

/-- Typing new text into the input field before the next search. -/
def set_input (s : AppState) (text : String) : AppState :=
  { s with input_field := text }

/-- The ordered conversation history exposed by the state (the spec's
`state.snapshot()`). -/
def snapshot (s : AppState) : List Turn := s.message_history

/-- One submission: type `text` into the input field and run the search. -/
def submit (agent : Agent) (text : String) (s : AppState) : RunResult :=
  run_search agent (set_input s text)

/-- C1: for every successful submit call (the generator returns a
structured `SearchQuery` result), the conversation state after the call
has exactly one more `Turn` than before, and the input recorded in the
new last `Turn` equals the text the caller submitted. -/
theorem run_search_success_appends_one_turn (agent : Agent) (s : AppState)
    (q : SearchQuery) (out : String)
    (h : agent (build_request s) = .completed (.structured q) out) :
    (snapshot (run_search agent s).state).length = (snapshot s).length + 1 ∧
    (snapshot (run_search agent s).state).getLast?
      = some { input := s.input_field, output := out } := by
  simp [run_search, snapshot, h]

/-- Witness for C1 at a concrete state and generator double. -/
theorem run_search_success_appends_one_turn_witness :
    (snapshot (run_search (fun _ => .completed (.structured ⟨"q"⟩) "o")
        ⟨"hello", [], none, []⟩).state).length
      = (snapshot (⟨"hello", [], none, []⟩ : AppState)).length + 1 ∧
    (snapshot (run_search (fun _ => .completed (.structured ⟨"q"⟩) "o")
        ⟨"hello", [], none, []⟩).state).getLast?
      = some { input := "hello", output := "o" } :=
  run_search_success_appends_one_turn _ _ ⟨"q"⟩ "o" rfl

/-- C2: for every failed submit call (the generator raises the generation
failure `UnexpectedModelBehavior`), the conversation state after the call
is identical to the state before the call: same list of turns, hence same
length and content, with no partial turn recorded. -/
theorem run_search_failure_state_unchanged (agent : Agent) (s : AppState)
    (msg : String)
    (h : agent (build_request s) = .unexpectedModelBehavior msg) :
    snapshot (run_search agent s).state = snapshot s := by
  simp [run_search, snapshot, h]

/-- Witness for C2 at a concrete state and raising generator double. -/
theorem run_search_failure_state_unchanged_witness :
    snapshot (run_search (fun _ => .unexpectedModelBehavior "boom")
        ⟨"hello", [], none, [{ input := "a", output := "b" }]⟩).state
      = snapshot (⟨"hello", [], none,
          [{ input := "a", output := "b" }]⟩ : AppState) :=
  run_search_failure_state_unchanged _ _ "boom" rfl

/-- C5: the query text used by `run_search` is the generator's query text
unaltered: the log line, the status message and the opened URL embed
exactly `q.search_query`; in particular, with a generator double that
returns the input text as-is, the browser is opened with exactly that
text in the URL (round-trip law). -/
theorem run_search_query_passthrough (agent : Agent) (s : AppState)
    (q : SearchQuery) (out : String)
    (h : agent (build_request s) = .completed (.structured q) out) :
    (run_search agent s).effects
      = [Effect.openUrl ("https://www.google.com/search?q=" ++ q.search_query)] ∧
    (run_search agent s).state.log_window
      = s.log_window ++ ["Search query: " ++ q.search_query] ∧
    (run_search agent s).state.status_bar
      = some ("Opening browser with query: " ++ q.search_query ++ "...") ∧
    (q.search_query = s.input_field →
      (run_search agent s).effects
        = [Effect.openUrl ("https://www.google.com/search?q=" ++ s.input_field)]) := by
  refine ⟨?_, ?_, ?_, ?_⟩ <;> simp [run_search, h]
  intro he
  simp [he]

/-- Witness for C5 with the identity (URL pass-through) generator double
on the input URL. -/
theorem run_search_query_passthrough_witness :
    (run_search (fun r => .completed (.structured ⟨r.text⟩) r.text)
        ⟨"https://www.example.com", [], none, []⟩).effects
      = [Effect.openUrl
          ("https://www.google.com/search?q=" ++ "https://www.example.com")] ∧
    (run_search (fun r => .completed (.structured ⟨r.text⟩) r.text)
        ⟨"https://www.example.com", [], none, []⟩).state.log_window
      = [] ++ ["Search query: " ++ "https://www.example.com"] ∧
    (run_search (fun r => .completed (.structured ⟨r.text⟩) r.text)
        ⟨"https://www.example.com", [], none, []⟩).state.status_bar
      = some ("Opening browser with query: "
          ++ "https://www.example.com" ++ "...") ∧
    ("https://www.example.com" = "https://www.example.com" →
      (run_search (fun r => .completed (.structured ⟨r.text⟩) r.text)
          ⟨"https://www.example.com", [], none, []⟩).effects
        = [Effect.openUrl
            ("https://www.google.com/search?q=" ++ "https://www.example.com")]) :=
  run_search_query_passthrough _ _ ⟨"https://www.example.com"⟩
    "https://www.example.com" rfl

/-- C7: for every prior state, including non-empty states of arbitrary
length, `reset_search` yields a state whose snapshot has length zero. -/
theorem reset_search_empties_history (s : AppState) :
    (snapshot (reset_search s)).length = 0 := by
  simp [reset_search, snapshot]

/-- C10: if the generator call completes without raising but its result
data is not a structured `SearchQuery`, `run_search` silently does
nothing: the state (including the status bar, so no error is surfaced) is
unchanged, no browser-open effect is issued, and nothing is raised. -/
theorem run_search_unstructured_silent (agent : Agent) (s : AppState)
    (out : String)
    (h : agent (build_request s) = .completed .unstructured out) :
    run_search agent s = { state := s, effects := [], uncaught := none } := by
  simp [run_search, h]

/-- Witness for C10 at a concrete state and a double completing with
unstructured data. -/
theorem run_search_unstructured_silent_witness :
    run_search (fun _ => .completed .unstructured "raw")
        ⟨"hi", [], none, []⟩
      = { state := ⟨"hi", [], none, []⟩, effects := [], uncaught := none } :=
  run_search_unstructured_silent _ _ "raw" rfl

/-- C3: for every submit call with non-empty prior state, the generation
request issued to the generator carries the full prior history together
with the current input; moreover, after a successful submission the
request built for the next submission (with new input typed in) carries
the previous call's full history followed by the turn that call recorded,
so on the second of two sequential submissions the request's history
contains Turn 1 in full. -/
theorem run_search_request_full_history (agent : Agent) (s : AppState)
    (_hne : s.message_history ≠ []) (q : SearchQuery) (out B : String)
    (h : agent (build_request s) = .completed (.structured q) out) :
    (build_request s).history = s.message_history ∧
    (build_request s).text = s.input_field ∧
    (build_request (set_input (run_search agent s).state B)).history
      = s.message_history ++ [{ input := s.input_field, output := out }] := by
  refine ⟨rfl, rfl, ?_⟩
  simp only [build_request] at h
  simp [run_search, build_request, set_input, h]

/-- Witness for C3: a second submission's request carries the first turn
in full, at a concrete non-empty prior state. -/
theorem run_search_request_full_history_witness :
    (build_request ⟨"t2", [], none, [{ input := "t1", output := "o1" }]⟩).history
      = [{ input := "t1", output := "o1" }] ∧
    (build_request ⟨"t2", [], none,
        [{ input := "t1", output := "o1" }]⟩).text = "t2" ∧
    (build_request (set_input
        (run_search (fun _ => .completed (.structured ⟨"q2"⟩) "o2")
          ⟨"t2", [], none, [{ input := "t1", output := "o1" }]⟩).state
        "t3")).history
      = [{ input := "t1", output := "o1" }]
          ++ [{ input := "t2", output := "o2" }] :=
  run_search_request_full_history _ _ (by decide) ⟨"q2"⟩ "o2" "t3" rfl

/-- C4: three sequential successful submissions A, B, C from empty state
leave the snapshot exactly [turn A, turn B, turn C] in insertion order;
and in general no `run_search` call removes or reorders previously
recorded turns: the old history is always an initial segment of the new
one. -/
theorem three_submissions_in_order (agent : Agent) (s0 : AppState)
    (A B C oA oB oC : String) (qA qB qC : SearchQuery)
    (h0 : s0.message_history = [])
    (hA : agent { text := A, history := [] }
      = .completed (.structured qA) oA)
    (hB : agent { text := B, history := [{ input := A, output := oA }] }
      = .completed (.structured qB) oB)
    (hC : agent { text := C, history := [{ input := A, output := oA },
        { input := B, output := oB }] }
      = .completed (.structured qC) oC) :
    snapshot (submit agent C
        (submit agent B (submit agent A s0).state).state).state
      = [{ input := A, output := oA }, { input := B, output := oB },
         { input := C, output := oC }] ∧
    ∀ (ag : Agent) (t : AppState),
      ∃ rest, snapshot (run_search ag t).state = snapshot t ++ rest := by
  constructor
  · simp [submit, run_search, build_request, set_input, snapshot, h0, hA, hB, hC]
  · intro ag t
    match hag : ag (build_request t) with
    | .completed (.structured q) out =>
        exact ⟨[{ input := t.input_field, output := out }],
          by simp [run_search, snapshot, hag]⟩
    | .completed .unstructured out =>
        exact ⟨[], by simp [run_search, snapshot, hag]⟩
    | .unexpectedModelBehavior msg =>
        exact ⟨[], by simp [run_search, snapshot, hag]⟩
    | .otherException msg =>
        exact ⟨[], by simp [run_search, snapshot, hag]⟩

/-- Witness for C4 at concrete inputs and a concrete three-response
generator double. -/
theorem three_submissions_in_order_witness :
    snapshot (submit (fun r => .completed (.structured ⟨r.text⟩)
          ("out" ++ r.text)) "C"
        (submit (fun r => .completed (.structured ⟨r.text⟩)
            ("out" ++ r.text)) "B"
          (submit (fun r => .completed (.structured ⟨r.text⟩)
              ("out" ++ r.text)) "A"
            ⟨"", [], none, []⟩).state).state).state
      = [{ input := "A", output := "out" ++ "A" },
         { input := "B", output := "out" ++ "B" },
         { input := "C", output := "out" ++ "C" }] ∧
    ∀ (ag : Agent) (t : AppState),
      ∃ rest, snapshot (run_search ag t).state = snapshot t ++ rest :=
  three_submissions_in_order _ _ "A" "B" "C"
    ("out" ++ "A") ("out" ++ "B") ("out" ++ "C")
    ⟨"A"⟩ ⟨"B"⟩ ⟨"C"⟩ rfl rfl rfl rfl

/-- C8: `run_search` does not reject empty input: the request text handed
to the generator is the raw input-field text even when empty, and with an
empty input and a generator double that succeeds, the full success path
runs — the empty input is recorded in the new turn, the browser is
opened, and no error of any kind is produced by the component itself. -/
theorem run_search_no_empty_input_validation (agent : Agent) (s : AppState)
    (hempty : s.input_field = "") (q : SearchQuery) (out : String)
    (h : agent (build_request s) = .completed (.structured q) out) :
    (build_request s).text = "" ∧
    snapshot (run_search agent s).state
      = snapshot s ++ [{ input := "", output := out }] ∧
    (run_search agent s).uncaught = none ∧
    (run_search agent s).effects
      = [Effect.openUrl ("https://www.google.com/search?q=" ++ q.search_query)] := by
  simp only [build_request, hempty] at h
  refine ⟨?_, ?_, ?_, ?_⟩ <;>
    simp [run_search, build_request, snapshot, h, hempty]

/-- Witness for C8 at the empty input with a succeeding double. -/
theorem run_search_no_empty_input_validation_witness :
    (build_request ⟨"", [], none, []⟩).text = "" ∧
    snapshot (run_search (fun _ => .completed (.structured ⟨"q"⟩) "o")
        ⟨"", [], none, []⟩).state
      = snapshot (⟨"", [], none, []⟩ : AppState)
          ++ [{ input := "", output := "o" }] ∧
    (run_search (fun _ => .completed (.structured ⟨"q"⟩) "o")
        ⟨"", [], none, []⟩).uncaught = none ∧
    (run_search (fun _ => .completed (.structured ⟨"q"⟩) "o")
        ⟨"", [], none, []⟩).effects
      = [Effect.openUrl ("https://www.google.com/search?q=" ++ "q")] :=
  run_search_no_empty_input_validation _ _ rfl ⟨"q"⟩ "o" rfl

/-- C6 counterexample: a generator run that completes without raising but
fails to produce a valid structured result (its data is not a
`SearchQuery`) is NOT propagated as the generation-failure error kind — at
this concrete input `run_search` surfaces no error message at all (the
status bar stays clear) and changes nothing, refuting the claim that
every inability to produce a valid structured result reaches the caller
as the single error kind with a diagnostic message. -/
theorem generator_failure_not_always_surfaced :
    (run_search (fun _ => .completed .unstructured "not a SearchQuery")
        ⟨"hi", [], none, []⟩).state.status_bar = none ∧
    (run_search (fun _ => .completed .unstructured "not a SearchQuery")
        ⟨"hi", [], none, []⟩).uncaught = none ∧
    run_search (fun _ => .completed .unstructured "not a SearchQuery")
        ⟨"hi", [], none, []⟩
      = { state := ⟨"hi", [], none, []⟩, effects := [], uncaught := none } := by
  refine ⟨rfl, rfl, rfl⟩

/-- C6 amended: every generator failure raised as the generation-failure
exception (`UnexpectedModelBehavior`) is handled uniformly — it is
surfaced as a status-bar error message carrying the exception's
human-readable message, with no effect issued, nothing re-raised, and the
conversation history untouched; but a run that completes without raising
while failing to yield a structured `SearchQuery` is not surfaced as any
error. -/
theorem model_behavior_failure_uniformly_surfaced (agent : Agent)
    (s : AppState) (msg : String)
    (h : agent (build_request s) = .unexpectedModelBehavior msg) :
    (run_search agent s).state.status_bar = some ("Error: " ++ msg) ∧
    (run_search agent s).effects = [] ∧
    (run_search agent s).uncaught = none ∧
    (run_search agent s).state.message_history = s.message_history := by
  refine ⟨?_, ?_, ?_, ?_⟩ <;> simp [run_search, h]

/-- Witness for the amended C6 at a concrete raising double. -/
theorem model_behavior_failure_uniformly_surfaced_witness :
    (run_search (fun _ => .unexpectedModelBehavior "connection refused")
        ⟨"hi", [], none, []⟩).state.status_bar
      = some ("Error: " ++ "connection refused") ∧
    (run_search (fun _ => .unexpectedModelBehavior "connection refused")
        ⟨"hi", [], none, []⟩).effects = [] ∧
    (run_search (fun _ => .unexpectedModelBehavior "connection refused")
        ⟨"hi", [], none, []⟩).uncaught = none ∧
    (run_search (fun _ => .unexpectedModelBehavior "connection refused")
        ⟨"hi", [], none, []⟩).state.message_history = [] :=
  model_behavior_failure_uniformly_surfaced _ _ "connection refused" rfl

/-- C9 counterexample: `run_search` itself does perform side effects
beyond the conversation-state mutation — at this concrete successful
input it issues the browser-launch effect (`QDesktopServices.openUrl`)
and writes the query line to the log window, refuting the claim that
browser launches and log writes are left to the caller. -/
theorem run_search_performs_side_effects :
    (run_search (fun _ => .completed (.structured ⟨"cats"⟩) "o")
        ⟨"cats", [], none, []⟩).effects
      = [Effect.openUrl "https://www.google.com/search?q=cats"] ∧
    (run_search (fun _ => .completed (.structured ⟨"cats"⟩) "o")
        ⟨"cats", [], none, []⟩).effects ≠ [] ∧
    (run_search (fun _ => .completed (.structured ⟨"cats"⟩) "o")
        ⟨"cats", [], none, []⟩).state.log_window
      = ["Search query: cats"] := by
  refine ⟨rfl, by decide, rfl⟩

/-- C9 amended: the side-effect footprint of `run_search` is exactly the
following and nothing more: on a successful structured result it opens
the browser once at the Google search URL for the query, appends one line
to the log window, sets the status bar, and appends one turn to the
history; in every other case it issues no external effect, leaves the log
window and history untouched, and at most sets the status bar. -/
theorem run_search_effect_footprint (agent : Agent) (s : AppState) :
    (∃ q out, agent (build_request s) = .completed (.structured q) out ∧
      run_search agent s =
        { state :=
            { s with
              log_window := s.log_window ++ ["Search query: " ++ q.search_query],
              status_bar :=
                some ("Opening browser with query: " ++ q.search_query ++ "..."),
              message_history := s.message_history
                ++ [{ input := s.input_field, output := out }] },
          effects :=
            [Effect.openUrl ("https://www.google.com/search?q=" ++ q.search_query)],
          uncaught := none }) ∨
    ((run_search agent s).effects = [] ∧
      (run_search agent s).state.log_window = s.log_window ∧
      (run_search agent s).state.message_history = s.message_history) := by
  match hag : agent (build_request s) with
  | .completed (.structured q) out =>
      exact Or.inl ⟨q, out, rfl, by simp [run_search, hag]⟩
  | .completed .unstructured out =>
      exact Or.inr (by refine ⟨?_, ?_, ?_⟩ <;> simp [run_search, hag])
  | .unexpectedModelBehavior msg =>
      exact Or.inr (by refine ⟨?_, ?_, ?_⟩ <;> simp [run_search, hag])
  | .otherException msg =>
      exact Or.inr (by refine ⟨?_, ?_, ?_⟩ <;> simp [run_search, hag])

end AIGoogleSearch
